import Mathlib

/-!
Verification of the gas-path station solvers of the Enginy jet-engine model
(`enginy/engine_parts/engine_thermo.py` and the component constructors).

The thermodynamic state of a gas station is shallowly embedded as a record of
static temperature, static pressure and a composition tag, all over `ℚ`.
The Gas State Provider (Cantera) is abstracted as a record of derived-property
functions (`cp`, `cv`, `density`), exactly the capability surface the solvers
call; the floating-point operations `**` (fractional powers) and `np.sqrt`
are abstracted as a record of numeric operations, with one concrete
executable instance (`qOps`) used to evaluate the solvers on concrete inputs.
`while` loops are embedded as fuel-indexed iteration of an explicit step
function on an explicit loop-state record; a loop that exits within the
supplied fuel ends in a state whose guard is false, while a state whose guard
is still true after every amount of fuel witnesses a non-terminating loop.
-/

namespace Enginy

/-- A gas station state: static temperature, static pressure, composition tag.
Mirrors the part of a `cantera.Solution` the solvers read and write
(`gas.T`, `gas.P`, `gas.X`); `gas.TP = t, p` writes `T` and `P` only. -/
structure GasState where
  T : ℚ
  P : ℚ
  X : ℚ
  deriving DecidableEq, Repr

/-- The Gas State Provider capability: derived properties as functions of the
current gas state. Mirrors `gas.cp`, `gas.cv`, `gas.density` of Cantera,
which recomputes them from (T, P, X) after every `TP` assignment. -/
structure GasModel where
  cp : GasState → ℚ
  cv : GasState → ℚ
  density : GasState → ℚ

/-- Abstracted floating-point numerics: Python `x ** e` for non-literal
exponents, and `numpy.sqrt`. -/
structure NumOps where
  pow : ℚ → ℚ → ℚ
  sqrt : ℚ → ℚ

/-- Largest `k ≤ bound` with `k * k ≤ n` (structural search, so that concrete
evaluations reduce in the kernel). -/
def natSqrtFrom (n : ℕ) : ℕ → ℕ
  | 0 => 0
  | k + 1 => if (k + 1) * (k + 1) ≤ n then k + 1 else natSqrtFrom n k

/-- Integer square root by downward search. -/
def natSqrt (n : ℕ) : ℕ :=
  natSqrtFrom n n

/-- Exact rational square root: the true square root when the argument is a
perfect square of a rational, and a junk value 0 otherwise (never relied on
away from perfect squares). -/
def qsqrt (q : ℚ) : ℚ :=
  let a : ℕ := natSqrt q.num.toNat
  let b : ℕ := natSqrt q.den
  if 0 ≤ q.num ∧ (a : ℤ) * a = q.num ∧ b * b = q.den then (a : ℚ) / b else 0

/-- Exact rational power: exact for integer exponents and for half-integer
exponents of perfect squares; junk value 0 otherwise. On the arguments the
concrete scenarios exercise it agrees with the real-number power that the
Python `**` computes. -/
def qpow (x e : ℚ) : ℚ :=
  if e.den = 1 then x ^ e.num
  else if e.den = 2 then (qsqrt x) ^ e.num
  else 0

/-- The concrete executable numeric operations. -/
def qOps : NumOps := ⟨qpow, qsqrt⟩

/-! ### Isentropic relations (`engine_thermo.py`, lines 9-113) -/

/-- `get_p_total`: stagnation pressure from static pressure, `gamma`, Mach. -/
def get_p_total (ops : NumOps) (p_static gamma mach : ℚ) : ℚ :=
  p_static * ops.pow (1 + ((gamma - 1) / 2) * mach ^ 2) (gamma / (gamma - 1))

/-- `get_temperature_total`: stagnation temperature from static temperature. -/
def get_temperature_total (temperature_static gamma mach : ℚ) : ℚ :=
  temperature_static * (1 + ((gamma - 1) / 2) * mach ^ 2)

/-- `get_temperature_static`: static temperature from stagnation temperature. -/
def get_temperature_static (temperature_total gamma mach : ℚ) : ℚ :=
  temperature_total / (1 + ((gamma - 1) / 2) * mach ^ 2)

/-- `get_p_static`: static pressure from stagnation pressure and the
static/total temperature ratio. -/
def get_p_static (ops : NumOps)
    (p_total temperature_static temperature_total gamma : ℚ) : ℚ :=
  p_total * ops.pow (temperature_static / temperature_total) (gamma / (gamma - 1))

/-- `get_gamma`: heat capacity ratio `cp / cv`. -/
def get_gamma (gm : GasModel) (gas : GasState) : ℚ :=
  gm.cp gas / gm.cv gas

/-- `get_gas_constant`: `cp - cv`. -/
def get_gas_constant (gm : GasModel) (gas : GasState) : ℚ :=
  gm.cp gas - gm.cv gas

/-- `get_a`: local speed of sound `sqrt(R * gamma * T)`. -/
def get_a (ops : NumOps) (gm : GasModel) (gas : GasState) : ℚ :=
  ops.sqrt (get_gas_constant gm gas * get_gamma gm gas * gas.T)

/-! ### Duct / Mach solver (`engine_thermo.py`, lines 116-188)

The `while not converged and n_iter <= max_iterations` loop is embedded as a
step function `machStep` on the loop state `MachState`, iterated by
`machLoop` with explicit fuel. The loop body never breaks; the loop exits
only when its guard `machGuard` becomes false. -/

/-- The mutable state of `mach_solver`'s loop, together with the two stations
it reads (`gas_in`, read-only in the body) and writes (`gas_out`). -/
structure MachState where
  gasIn : GasState
  gasOut : GasState
  nIter : ℕ
  converged : Bool
  machOut : ℚ
  tTotalOut : ℚ
  vGuess : ℚ
  gammaOut : ℚ
  deriving DecidableEq, Repr

/-- The outlet total pressure computed in each iteration of `mach_solver`
(line 162-164): `gas_in.P * (1 + eta * velocity_in**2 / (2 * gas_in.cp *
gas_in.T)) ** (gamma_in / (gamma_in - 1))`. -/
def machPTotalOut (ops : NumOps) (gm : GasModel) (gasIn : GasState)
    (eta velocityIn gammaIn : ℚ) : ℚ :=
  gasIn.P *
    ops.pow (1 + eta * velocityIn ^ 2 / (2 * gm.cp gasIn * gasIn.T))
      (gammaIn / (gammaIn - 1))

/-- One iteration of the `mach_solver` loop body (lines 156-187). -/
def machStep (ops : NumOps) (gm : GasModel)
    (massFlow area eta velocityIn gammaIn tol : ℚ) (maxIterations : ℕ)
    (s : MachState) : MachState :=
  let tStaticOut :=
    s.gasIn.T +
      (velocityIn ^ 2 / (2 * gm.cp s.gasIn) - s.vGuess ^ 2 / (2 * gm.cp s.gasOut))
  let pTotalOut := machPTotalOut ops gm s.gasIn eta velocityIn gammaIn
  let pStaticOut :=
    pTotalOut * ops.pow (s.tTotalOut / tStaticOut) (s.gammaOut / (s.gammaOut - 1))
  let gasOut' : GasState := { s.gasOut with T := tStaticOut, P := pStaticOut }
  let gammaOut' := get_gamma gm gasOut'
  let vOut := s.vGuess
  let vGuess' := massFlow / (gm.density gasOut' * area)
  if |vOut - vGuess'| < tol then
    { s with gasOut := gasOut', gammaOut := gammaOut', vGuess := vGuess',
             converged := true, machOut := vOut / get_a ops gm gasOut' }
  else if s.nIter < maxIterations then
    { s with gasOut := gasOut', gammaOut := gammaOut', vGuess := vGuess',
             nIter := s.nIter + 1 }
  else
    { s with gasOut := gasOut', gammaOut := gammaOut', vGuess := vGuess',
             machOut := 0 }

/-- The loop guard `not converged and n_iter <= max_iterations`. -/
def machGuard (maxIterations : ℕ) (s : MachState) : Prop :=
  s.converged = false ∧ s.nIter ≤ maxIterations

instance (maxIterations : ℕ) (s : MachState) :
    Decidable (machGuard maxIterations s) := by
  unfold machGuard; infer_instance

/-- Fuel-indexed iteration of the `mach_solver` loop. A run that needs less
than the supplied fuel ends in a state whose guard is false; a state whose
guard is still true consumed all the fuel. -/
def machLoop (ops : NumOps) (gm : GasModel)
    (massFlow area eta velocityIn gammaIn tol : ℚ) (maxIterations : ℕ) :
    ℕ → MachState → MachState
  | 0, s => s
  | fuel + 1, s =>
    if machGuard maxIterations s then
      machLoop ops gm massFlow area eta velocityIn gammaIn tol maxIterations fuel
        (machStep ops gm massFlow area eta velocityIn gammaIn tol maxIterations s)
    else s

/-- The state of `mach_solver` at its loop head (lines 142-154): iteration
counter and convergence flag zeroed, outlet total temperature set to the
inlet total temperature, initial velocity guess from continuity at inlet
density, outlet heat-capacity ratio initialised to the inlet one. -/
def machInit (gm : GasModel) (massFlow area machIn : ℚ)
    (gasIn gasOut : GasState) : MachState :=
  let gammaIn := get_gamma gm gasIn
  { gasIn := gasIn
    gasOut := gasOut
    nIter := 0
    converged := false
    machOut := 0
    tTotalOut := get_temperature_total gasIn.T gammaIn machIn
    vGuess := massFlow / (gm.density gasIn * area)
    gammaOut := gammaIn }

/-- `mach_solver` run with the given fuel: final loop state. The Python
function's return value is `(machOut, converged)` of this state, and its
effect on the stations is the state's `gasIn`/`gasOut` fields. -/
def machSolver (ops : NumOps) (gm : GasModel)
    (massFlow area eta machIn tol : ℚ) (maxIterations fuel : ℕ)
    (gasIn gasOut : GasState) : MachState :=
  let velocityIn := machIn * get_a ops gm gasIn
  let gammaIn := get_gamma gm gasIn
  machLoop ops gm massFlow area eta velocityIn gammaIn tol maxIterations fuel
    (machInit gm massFlow area machIn gasIn gasOut)

/-! ### Compressor solver (`engine_thermo.py`, lines 191-397)

`_process_compressor_stages` walks the stages once for a given multiplier
array; `compressor_solver`'s outer loop re-runs the walk, shifting the
multipliers while the maximum inter-stage temperature rise keeps improving. -/

/-- The composition tag of `gas_management.comp_air`, used for the scratch
stage gas (`stage_gas.X = gas_management.comp_air`). -/
def compAirX : ℚ := 0

/-- Accumulator of the stage walk in `_process_compressor_stages`: the
scratch `stage_gas`, the per-stage total-condition trackers, the work
accumulator and the per-stage (T, p) traces. -/
structure StageAcc where
  stageGas : GasState
  pTotalStage : ℚ
  tTotalStage : ℚ
  work : ℚ
  stagesT : List ℚ
  stagesP : List ℚ
  deriving DecidableEq, Repr

/-- One stage of the compressor stage walk (lines 238-268), for the stage
multiplier `mult`. -/
def compressorStage (ops : NumOps) (gm : GasModel)
    (compressStage compEta machIn : ℚ) (acc : StageAcc) (mult : ℚ) : StageAcc :=
  let temperatureI := acc.stageGas.T
  let gamma := get_gamma gm acc.stageGas
  let pTotal := get_p_total ops acc.stageGas.P gamma machIn * compressStage * mult
  let tTotal :=
    acc.tTotalStage / compEta *
        (ops.pow (pTotal / acc.pTotalStage) ((gamma - 1) / gamma) - 1) +
      acc.tTotalStage
  let tStatic := get_temperature_static tTotal gamma machIn
  let pStatic := get_p_static ops pTotal tStatic tTotal gamma
  let stageGas' : GasState := { acc.stageGas with T := tStatic, P := pStatic }
  { stageGas := stageGas'
    pTotalStage := pTotal
    tTotalStage := tTotal
    work := acc.work + gm.cp stageGas' * (tStatic - temperatureI)
    stagesT := acc.stagesT ++ [tStatic]
    stagesP := acc.stagesP ++ [pStatic] }

/-- `np.diff(v).max()`: maximum of consecutive differences (junk 0 for lists
with fewer than two elements; only used under the `n_stages > 2` branch). -/
def maxConsecDiff (l : List ℚ) : ℚ :=
  match l.tail.zipWith (fun a b => a - b) l with
  | [] => 0
  | d :: ds => ds.foldl max d

/-- The `max_delta_t` computation of `_process_compressor_stages`
(lines 270-279): three branches on the stage count. -/
def maxDeltaT (nStages : ℕ) (stagesT : List ℚ) (tIn tStaticFinal : ℚ) : ℚ :=
  if nStages > 2 then maxConsecDiff stagesT
  else if nStages > 1 then
    max (stagesT.getD 1 0 - stagesT.getD 0 0) (stagesT.getD 0 0 - tIn)
  else tStaticFinal - tIn

/-- Result record of `_process_compressor_stages`. -/
structure StagesResult where
  temperatureStatic : ℚ
  pStatic : ℚ
  compressorWork : ℚ
  stagesTemperatureOut : List ℚ
  stagesPOut : List ℚ
  maxDeltaT : ℚ
  deriving DecidableEq, Repr

/-- `_process_compressor_stages` (lines 191-288): one full pass over all
stages with the given multiplier list, starting from a fresh scratch gas at
the inlet static conditions with air composition. -/
def processCompressorStages (ops : NumOps) (gm : GasModel) (gasIn : GasState)
    (compressStage compEta machIn : ℚ) (stageMultiplier : List ℚ)
    (temperatureTotalIn pTotalIn : ℚ) : StagesResult :=
  let acc0 : StageAcc :=
    { stageGas := { T := gasIn.T, P := gasIn.P, X := compAirX }
      pTotalStage := pTotalIn
      tTotalStage := temperatureTotalIn
      work := 0
      stagesT := []
      stagesP := [] }
  let acc := stageMultiplier.foldl (compressorStage ops gm compressStage compEta machIn) acc0
  { temperatureStatic := acc.stageGas.T
    pStatic := acc.stageGas.P
    compressorWork := acc.work
    stagesTemperatureOut := acc.stagesT
    stagesPOut := acc.stagesP
    maxDeltaT := maxDeltaT stageMultiplier.length acc.stagesT gasIn.T acc.stageGas.T }

/-- The `shifter` array of `compressor_solver` (lines 327-337): early stages
shifted up, late stages down, by `step_shift = shift / n` per stage. -/
def shifterList (n : ℕ) (stepShift : ℚ) : List ℚ :=
  (List.range n).map fun j =>
    if j < n / 2 then 1 + ((n / 2 : ℕ) - (j : ℚ)) * stepShift
    else if n - n / 2 ≤ j then 1 - (((n / 2 : ℕ) : ℚ) - ((n : ℚ) - 1 - j)) * stepShift
    else 1

/-- Verification trace of one outer pass of `compressor_solver`: the pass's
`max_delta_t` and the outlet values it computed. -/
structure PassRecord where
  delta : ℚ
  temperatureStatic : ℚ
  pStatic : ℚ
  work : ℚ
  deriving DecidableEq, Repr

/-- The mutable state of `compressor_solver`'s outer loop, plus the upstream
station `gasIn` (read-only in the body) and a ghost `trace` recording each
executed pass (not in the source; the step provably only appends to it). -/
structure CompState where
  gasIn : GasState
  nIter : ℕ
  converged : Bool
  prevDeltaT : ℚ
  stageMultiplier : List ℚ
  temperatureStatic : ℚ
  pStatic : ℚ
  compressorWork : ℚ
  stagesTemperatureOut : List ℚ
  stagesPOut : List ℚ
  trace : List PassRecord
  deriving DecidableEq, Repr

/-- One iteration of `compressor_solver`'s outer loop (lines 349-388): run a
full stage pass, then either shift the multipliers (improvement and budget
left), exit the budget (`n_iter` pushed past the bound), or converge. -/
def compressorPass (ops : NumOps) (gm : GasModel)
    (compressStage compEta machIn temperatureTotalIn pTotalIn : ℚ)
    (shifter : List ℚ) (maxIterations : ℕ) (s : CompState) : CompState :=
  let r := processCompressorStages ops gm s.gasIn compressStage compEta machIn
    s.stageMultiplier temperatureTotalIn pTotalIn
  let s' := { s with
    temperatureStatic := r.temperatureStatic
    pStatic := r.pStatic
    compressorWork := r.compressorWork
    stagesTemperatureOut := r.stagesTemperatureOut
    stagesPOut := r.stagesPOut
    trace := s.trace ++
      [PassRecord.mk r.maxDeltaT r.temperatureStatic r.pStatic r.compressorWork] }
  if r.maxDeltaT < s.prevDeltaT ∧ s.nIter < maxIterations then
    { s' with
      nIter := s.nIter + 1
      stageMultiplier := s.stageMultiplier.zipWith (· * ·) shifter
      prevDeltaT := r.maxDeltaT }
  else if s.nIter ≥ maxIterations then
    { s' with nIter := s.nIter + 1 }
  else
    { s' with converged := true }

/-- The outer-loop guard `not converged and n_iter <= max_iterations`. -/
def compGuard (maxIterations : ℕ) (s : CompState) : Prop :=
  s.converged = false ∧ s.nIter ≤ maxIterations

instance (maxIterations : ℕ) (s : CompState) :
    Decidable (compGuard maxIterations s) := by
  unfold compGuard; infer_instance

/-- Fuel-indexed iteration of `compressor_solver`'s outer loop. -/
def compLoop (ops : NumOps) (gm : GasModel)
    (compressStage compEta machIn temperatureTotalIn pTotalIn : ℚ)
    (shifter : List ℚ) (maxIterations : ℕ) : ℕ → CompState → CompState
  | 0, s => s
  | fuel + 1, s =>
    if compGuard maxIterations s then
      compLoop ops gm compressStage compEta machIn temperatureTotalIn pTotalIn
        shifter maxIterations fuel
        (compressorPass ops gm compressStage compEta machIn temperatureTotalIn
          pTotalIn shifter maxIterations s)
    else s

/-- The state of `compressor_solver` at its loop head (lines 340-347). -/
def compInit (nStages : ℕ) (gasIn : GasState) : CompState :=
  { gasIn := gasIn
    nIter := 0
    converged := false
    prevDeltaT := 1000
    stageMultiplier := List.replicate nStages 1
    temperatureStatic := 0
    pStatic := 0
    compressorWork := 0
    stagesTemperatureOut := List.replicate nStages 0
    stagesPOut := List.replicate nStages 0
    trace := [] }

/-- `compressor_solver` run with the given fuel: final outer-loop state.
The committed outlet station is `gas_out.TP = temperature_static, p_static`
of this state and the return value is `(zip stagesT stagesP, converged,
compressor_work)`. -/
def compressorSolver (ops : NumOps) (gm : GasModel) (nStages : ℕ)
    (compress compEta machIn : ℚ) (maxIterations fuel : ℕ)
    (gasIn : GasState) : CompState :=
  let gammaIn := get_gamma gm gasIn
  let temperatureTotalIn := get_temperature_total gasIn.T gammaIn machIn
  let pTotalIn := get_p_total ops gasIn.P gammaIn machIn
  let compressStage := ops.pow compress (1 / (nStages : ℚ))
  let stepShift : ℚ := (1 / 1000) / (nStages : ℚ)
  let shifter := shifterList nStages stepShift
  compLoop ops gm compressStage compEta machIn temperatureTotalIn pTotalIn
    shifter maxIterations fuel (compInit nStages gasIn)

/-- The outlet gas state committed by `compressor_solver` on exit
(line 391: `gas_out.TP = temperature_static, p_static`). -/
def compressorGasOut (s : CompState) (gasOut : GasState) : GasState :=
  { gasOut with T := s.temperatureStatic, P := s.pStatic }

/-! ### Combustor solver (`engine_thermo.py`, lines 400-459) -/

/-- The mutable state of `combustor_solver`'s loop, with the stations and the
pre-loop outlet total conditions. `pTotalOut` and `tTotalOut` are fixed
before the loop (lines 433-434) and the body contains no assignment to them. -/
structure CombState where
  gasIn : GasState
  gasOut : GasState
  nIter : ℕ
  converged : Bool
  machOut : ℚ
  tTotalOut : ℚ
  pTotalOut : ℚ
  tOut : ℚ
  pOut : ℚ
  deriving DecidableEq, Repr

/-- The tolerance hardcoded in `combustor_solver` (line 424). -/
def combTol : ℚ := 1 / 100

/-- The iteration bound hardcoded in `combustor_solver` (line 425). -/
def combMaxIter : ℕ := 100

/-- One iteration of the `combustor_solver` loop body (lines 438-458). -/
def combustorStep (ops : NumOps) (gm : GasModel) (velocityNominal : ℚ)
    (s : CombState) : CombState :=
  let gasOut' : GasState := { s.gasOut with T := s.tOut, P := s.pOut }
  let aOut := get_a ops gm gasOut'
  let machOut' := velocityNominal / aOut
  let gammaOut := get_gamma gm gasOut'
  let tOut' := get_temperature_static s.tTotalOut gammaOut machOut'
  let pOut' := get_p_static ops s.pTotalOut tOut' s.tTotalOut gammaOut
  if |gasOut'.P - pOut'| < combTol then
    { s with gasOut := gasOut', machOut := machOut', tOut := tOut',
             pOut := pOut', converged := true }
  else if s.nIter < combMaxIter then
    { s with gasOut := gasOut', machOut := machOut', tOut := tOut',
             pOut := pOut', nIter := s.nIter + 1 }
  else
    { s with gasOut := gasOut', machOut := 0, tOut := tOut', pOut := pOut' }

/-- The loop guard `not converged and n_iter <= max_iter`. -/
def combGuard (s : CombState) : Prop :=
  s.converged = false ∧ s.nIter ≤ combMaxIter

instance (s : CombState) : Decidable (combGuard s) := by
  unfold combGuard; infer_instance

/-- Fuel-indexed iteration of the `combustor_solver` loop. -/
def combLoop (ops : NumOps) (gm : GasModel) (velocityNominal : ℚ) :
    ℕ → CombState → CombState
  | 0, s => s
  | fuel + 1, s =>
    if combGuard s then
      combLoop ops gm velocityNominal fuel (combustorStep ops gm velocityNominal s)
    else s

/-- The state of `combustor_solver` at its loop head (lines 426-436): outlet
total temperature copied from the inlet, outlet total pressure set once to
`p_total_in * (1 - pressure_lost)`, trial outlet static conditions started
at the inlet static conditions. -/
def combInit (ops : NumOps) (gm : GasModel) (machIn pressureLost : ℚ)
    (gasIn gasOut : GasState) : CombState :=
  let gammaIn := get_gamma gm gasIn
  let temperatureTotalIn := get_temperature_total gasIn.T gammaIn machIn
  let pTotalIn := get_p_total ops gasIn.P gammaIn machIn
  { gasIn := gasIn
    gasOut := gasOut
    nIter := 0
    converged := false
    machOut := 0
    tTotalOut := temperatureTotalIn
    pTotalOut := pTotalIn * (1 - pressureLost)
    tOut := gasIn.T
    pOut := gasIn.P }

/-- `combustor_solver` run with the given fuel: final loop state. The Python
return value is `(machOut, converged)` of this state. -/
def combustorSolver (ops : NumOps) (gm : GasModel)
    (velocityNominal machIn pressureLost : ℚ) (fuel : ℕ)
    (gasIn gasOut : GasState) : CombState :=
  combLoop ops gm velocityNominal fuel
    (combInit ops gm machIn pressureLost gasIn gasOut)

/-! ### Turbine solver (`engine_thermo.py`, lines 462-538) -/

/-- The per-stage state of `turbine_solver`'s stage loop: scratch gas, total
conditions carried stage to stage, accumulated work, and traces. -/
structure TurbState where
  stageGas : GasState
  temperatureTotalIn : ℚ
  pTotalIn : ℚ
  temperatureOut : ℚ
  pOut : ℚ
  turbineWork : ℚ
  stagesTemperatureOut : List ℚ
  stagesPOut : List ℚ
  deriving DecidableEq, Repr

/-- One stage of `turbine_solver` (lines 506-536), extracting the total
specific work `workPerStage`, with the one-step gamma refresh. -/
def turbineStage (ops : NumOps) (gm : GasModel)
    (turbineEta machOut workPerStage : ℚ) (s : TurbState) : TurbState :=
  let gamma := get_gamma gm s.stageGas
  let temperatureStaticIn := s.stageGas.T
  let temperatureTotalPrime :=
    s.temperatureTotalIn - workPerStage / (gm.cp s.stageGas * turbineEta)
  let pTotalOut :=
    s.pTotalIn *
      ops.pow (temperatureTotalPrime / s.temperatureTotalIn) (gamma / (gamma - 1))
  let temperatureTotalOut :=
    s.temperatureTotalIn - turbineEta * (s.temperatureTotalIn - temperatureTotalPrime)
  let temperatureOut1 := get_temperature_static temperatureTotalOut gamma machOut
  let pOut1 := get_p_static ops pTotalOut temperatureOut1 temperatureTotalOut gamma
  let stageGas1 : GasState := { s.stageGas with T := temperatureOut1, P := pOut1 }
  let gamma2 := get_gamma gm stageGas1
  let temperatureOut2 := get_temperature_static temperatureTotalOut gamma2 machOut
  let pOut2 := get_p_static ops pTotalOut temperatureOut2 temperatureTotalOut gamma2
  let stageGas2 : GasState := { stageGas1 with T := temperatureOut2, P := pOut2 }
  { stageGas := stageGas2
    temperatureTotalIn := temperatureTotalOut
    pTotalIn := pTotalOut
    temperatureOut := temperatureOut2
    pOut := pOut2
    turbineWork := s.turbineWork + gm.cp stageGas2 * (temperatureOut2 - temperatureStaticIn)
    stagesTemperatureOut := s.stagesTemperatureOut ++ [temperatureOut2]
    stagesPOut := s.stagesPOut ++ [pOut2] }

/-- The turbine stage walk for an arbitrary per-stage required total specific
work assignment `stageWork`. This is the specification-level solver ("required
total specific work per stage"); `turbine_solver` is this walk at a constant
`stageWork`. -/
def turbineStagesWith (ops : NumOps) (gm : GasModel) (turbineEta machOut : ℚ)
    (stageWork : ℕ → ℚ) (nStages : ℕ) (s0 : TurbState) : TurbState :=
  (List.range nStages).foldl
    (fun s i => turbineStage ops gm turbineEta machOut (stageWork i) s) s0

/-- The `work_per_stage` computation of `turbine_solver` (line 495). -/
def turbineWorkPerStage (compressorWork turbineLoss : ℚ) (turbineNStages : ℕ) : ℚ :=
  compressorWork / turbineLoss / (turbineNStages : ℚ)

/-- The state of `turbine_solver` before its stage loop (lines 484-504):
scratch gas at the static inlet conditions with the inlet composition. -/
def turbineInit (ops : NumOps) (gm : GasModel) (machIn machOut : ℚ)
    (gasIn : GasState) : TurbState :=
  let gammaIn := get_gamma gm gasIn
  let temperatureTotalIn := get_temperature_total gasIn.T gammaIn machIn
  let pTotalIn := get_p_total ops gasIn.P gammaIn machIn
  let temperatureStaticIn := get_temperature_static temperatureTotalIn gammaIn machOut
  let pStaticIn := get_p_static ops pTotalIn temperatureStaticIn temperatureTotalIn gammaIn
  { stageGas := { T := temperatureStaticIn, P := pStaticIn, X := gasIn.X }
    temperatureTotalIn := temperatureTotalIn
    pTotalIn := pTotalIn
    temperatureOut := temperatureStaticIn
    pOut := pStaticIn
    turbineWork := 0
    stagesTemperatureOut := []
    stagesPOut := [] }

/-- The stage loop of `turbine_solver` (lines 506-536): every stage uses the
single `work_per_stage` value computed on line 495. -/
def turbineStages (ops : NumOps) (gm : GasModel)
    (turbineEta machOut workPerStage : ℚ) (nStages : ℕ) (s0 : TurbState) :
    TurbState :=
  (List.range nStages).foldl
    (fun s _ => turbineStage ops gm turbineEta machOut workPerStage s) s0

/-- `turbine_solver`: the stage walk with the constant per-stage work
`(compressor_work / turbine_loss) / turbine_n_stages`. -/
def turbineSolver (ops : NumOps) (gm : GasModel)
    (compressorWork : ℚ) (turbineNStages : ℕ)
    (turbineEta turbineLoss machIn machOut : ℚ) (gasIn : GasState) : TurbState :=
  let workPerStage := turbineWorkPerStage compressorWork turbineLoss turbineNStages
  turbineStages ops gm turbineEta machOut workPerStage turbineNStages
    (turbineInit ops gm machIn machOut gasIn)

/-- The outlet station committed by `turbine_solver` (line 538:
`gas_out.TP = temperature_out, p_out`). -/
def turbineGasOut (s : TurbState) (gasOut : GasState) : GasState :=
  { gasOut with T := s.temperatureOut, P := s.pOut }

/-! ### Station-level view of the solvers

Each solver holds a read handle to its upstream station `gas_in` and a
read/write handle to its outlet station `gas_out`; these wrappers record the
net effect of one solver call on that pair of stations. -/

/-- The pair of stations a solver call touches. -/
structure Stations where
  gasIn : GasState
  gasOut : GasState
  deriving DecidableEq, Repr

/-- Effect of one `mach_solver` call on its stations. -/
def machSolverStations (ops : NumOps) (gm : GasModel)
    (massFlow area eta machIn tol : ℚ) (maxIterations fuel : ℕ)
    (st : Stations) : Stations :=
  let s := machSolver ops gm massFlow area eta machIn tol maxIterations fuel
    st.gasIn st.gasOut
  { gasIn := s.gasIn, gasOut := s.gasOut }

/-- Effect of one `compressor_solver` call on its stations. -/
def compressorSolverStations (ops : NumOps) (gm : GasModel) (nStages : ℕ)
    (compress compEta machIn : ℚ) (maxIterations fuel : ℕ)
    (st : Stations) : Stations :=
  let s := compressorSolver ops gm nStages compress compEta machIn
    maxIterations fuel st.gasIn
  { gasIn := s.gasIn, gasOut := compressorGasOut s st.gasOut }

/-- Effect of one `combustor_solver` call on its stations. -/
def combustorSolverStations (ops : NumOps) (gm : GasModel)
    (velocityNominal machIn pressureLost : ℚ) (fuel : ℕ)
    (st : Stations) : Stations :=
  let s := combustorSolver ops gm velocityNominal machIn pressureLost fuel
    st.gasIn st.gasOut
  { gasIn := s.gasIn, gasOut := s.gasOut }

/-- Effect of one `turbine_solver` call on its stations: the stage walk reads
`gas_in` and writes `gas_out.TP` only (line 538). -/
def turbineSolverStations (ops : NumOps) (gm : GasModel)
    (compressorWork : ℚ) (turbineNStages : ℕ)
    (turbineEta turbineLoss machIn machOut : ℚ) (st : Stations) : Stations :=
  let s := turbineSolver ops gm compressorWork turbineNStages turbineEta
    turbineLoss machIn machOut st.gasIn
  { gasIn := st.gasIn, gasOut := turbineGasOut s st.gasOut }

/-! ### Component constructors (`compressor.py`, `combustor.py`)

`Compressor.__init__` (`src/Enginy/engine_parts/compressor.py`, lines 57-63)
receives the solver's `(st_out, convergence, compressor_work)` tuple, binds
`convergence` to a local that is never read, stores the other two fields and
always finishes. `Combustor._gas_update` (`src/enginy/engine_parts/
combustor.py`, lines 94-106) checks the flag, but on failure only prints and
falls through to equilibrate the outlet station; the build completes. -/

/-- The downstream-visible result of a completed `Compressor.__init__`. -/
structure CompressorComponent where
  stOut : List (ℚ × ℚ)
  compressorWork : ℚ
  deriving DecidableEq, Repr

/-- `Compressor.__init__`'s handling of the solver result: it stores the
per-stage trace and the specific work taken from the final solver state and
completes unconditionally. -/
def compressorComponentOf (s : CompState) : CompressorComponent :=
  { stOut := s.stagesTemperatureOut.zip s.stagesPOut
    compressorWork := s.compressorWork }

/-- The outcome of `Combustor._gas_update`'s convergence handling: the exit
Mach number is stored only on convergence, and the build always completes
(there is no abort path). -/
structure CombustorBuildOutcome where
  machCombOut : Option ℚ
  completed : Bool
  deriving DecidableEq, Repr

/-- `Combustor._gas_update`, lines 94-106: `if conv: self.M_comb_out = ...`
`else: print(...)`, then equilibrate and return. -/
def combustorGasUpdateOutcome (machCalc : ℚ) (conv : Bool) :
    CombustorBuildOutcome :=
  { machCombOut := if conv then some machCalc else none
    completed := true }

/-! ### Concrete instances used to evaluate the solvers

`gmTwo` is a provider with constant `cp = 2`, `cv = 1` (so `gamma = 2`,
`R = 1`) and constant density 1; `gmHalf` has constant `cp = 1`, `cv = 2`
(so `gamma = 1/2`, making both solver exponents equal `-1`); `c2Gm` is
`gmTwo` with a density that alternates the continuity velocity guess between
1 and 2 forever. -/

/-- Provider with `gamma = 2` and unit density. -/
def gmTwo : GasModel :=
  { cp := fun _ => 2, cv := fun _ => 1, density := fun _ => 1 }

/-- Provider with `gamma = 1/2` (integer solver exponents) and unit density. -/
def gmHalf : GasModel :=
  { cp := fun _ => 1, cv := fun _ => 2, density := fun _ => 1 }

/-- Provider whose density maps the mach-solver velocity guess 1 to 2 and
back, so the fixed-point iteration oscillates with gap 1 forever. -/
def c2Gm : GasModel :=
  { cp := fun _ => 2, cv := fun _ => 1
    density := fun g => if g.T = 7 / 4 then 1 / 2 else 1 }

/-- Inlet station for the oscillating mach-solver run. -/
def c2GasIn : GasState := { T := 2, P := 10, X := 0 }

/-- Inlet station for the first-iteration mach-solver evaluation. -/
def c1GasIn : GasState := { T := 9 / 4, P := 64, X := 0 }

/-! ## Frame lemmas: the loop bodies never write the upstream station -/

theorem machStep_gasIn (ops : NumOps) (gm : GasModel)
    (massFlow area eta velocityIn gammaIn tol : ℚ) (maxIterations : ℕ)
    (s : MachState) :
    (machStep ops gm massFlow area eta velocityIn gammaIn tol maxIterations s).gasIn
      = s.gasIn := by
  simp only [machStep]
  split_ifs <;> rfl

theorem machLoop_gasIn (ops : NumOps) (gm : GasModel)
    (massFlow area eta velocityIn gammaIn tol : ℚ) (maxIterations : ℕ) :
    ∀ (fuel : ℕ) (s : MachState),
      (machLoop ops gm massFlow area eta velocityIn gammaIn tol maxIterations
        fuel s).gasIn = s.gasIn := by
  intro fuel
  induction fuel with
  | zero => intro s; rfl
  | succ f ih =>
    intro s
    rw [machLoop]
    split_ifs
    · rw [ih, machStep_gasIn]
    · rfl

theorem compressorPass_gasIn (ops : NumOps) (gm : GasModel)
    (compressStage compEta machIn temperatureTotalIn pTotalIn : ℚ)
    (shifter : List ℚ) (maxIterations : ℕ) (s : CompState) :
    (compressorPass ops gm compressStage compEta machIn temperatureTotalIn
      pTotalIn shifter maxIterations s).gasIn = s.gasIn := by
  simp only [compressorPass]
  split_ifs <;> rfl

theorem compLoop_gasIn (ops : NumOps) (gm : GasModel)
    (compressStage compEta machIn temperatureTotalIn pTotalIn : ℚ)
    (shifter : List ℚ) (maxIterations : ℕ) :
    ∀ (fuel : ℕ) (s : CompState),
      (compLoop ops gm compressStage compEta machIn temperatureTotalIn pTotalIn
        shifter maxIterations fuel s).gasIn = s.gasIn := by
  intro fuel
  induction fuel with
  | zero => intro s; rfl
  | succ f ih =>
    intro s
    rw [compLoop]
    split_ifs
    · rw [ih, compressorPass_gasIn]
    · rfl

theorem combustorStep_gasIn (ops : NumOps) (gm : GasModel)
    (velocityNominal : ℚ) (s : CombState) :
    (combustorStep ops gm velocityNominal s).gasIn = s.gasIn := by
  simp only [combustorStep]
  split_ifs <;> rfl

theorem combLoop_gasIn (ops : NumOps) (gm : GasModel) (velocityNominal : ℚ) :
    ∀ (fuel : ℕ) (s : CombState),
      (combLoop ops gm velocityNominal fuel s).gasIn = s.gasIn := by
  intro fuel
  induction fuel with
  | zero => intro s; rfl
  | succ f ih =>
    intro s
    rw [combLoop]
    split_ifs
    · rw [ih, combustorStep_gasIn]
    · rfl

/-! ## The claims -/

/-- **C1.** The claim states that `mach_solver` derives the outlet static
pressure by the isentropic relation of `get_p_static`, i.e.
`p_total_out * (T_static_out / T_total_out)^(gamma/(gamma-1))`. The code
(line 165-167) instead uses the reciprocal temperature ratio
`T_total_out / T_static_out`. On a concrete first iteration (`gamma = 2`,
inlet T = 9/4, P = 64, zero inlet Mach, unit mass flow, area and
efficiency), the outlet state pushed into `gas_out` has `T_static_out = 2`,
`T_total_out = 9/4`, `p_total_out = 64`, and the pushed static pressure is
`81` — above the total pressure — whereas the `get_p_static` relation at the
same arguments gives `4096/81`. -/
theorem mach_solver_p_static_ratio_inverted :
    (machSolver qOps gmTwo 1 1 1 0 (1/100) 100 1 c1GasIn c1GasIn).gasOut.T = 2 ∧
    (machSolver qOps gmTwo 1 1 1 0 (1/100) 100 1 c1GasIn c1GasIn).gasOut.P = 81 ∧
    machPTotalOut qOps gmTwo c1GasIn 1 (0 * get_a qOps gmTwo c1GasIn)
      (get_gamma gmTwo c1GasIn) = 64 ∧
    get_p_static qOps 64 2 (9/4) 2 = 4096 / 81 ∧
    (81 : ℚ) ≠ 4096 / 81 := by
  refine ⟨?_, ?_, ?_, ?_, by norm_num⟩ <;>
    norm_num [machSolver, machLoop, machInit, machStep, machGuard, machPTotalOut,
      get_a, get_gamma, get_gas_constant, get_temperature_total, get_p_static,
      qOps, qpow, qsqrt, natSqrt, natSqrtFrom, gmTwo, c1GasIn]

/-- **C4.** The claim states that a component constructor inspects a solver's
`converged = false` and aborts construction of dependents. In the code,
`Compressor.__init__` binds the flag to a local it never reads: the
constructed component is unchanged under flipping the reported flag, so a
failed solve builds the same downstream-visible component as a successful
one; and `Combustor._gas_update` on `conv = false` merely skips storing the
exit Mach number and completes the build. -/
theorem component_constructors_ignore_convergence :
    (∀ (s : CompState) (b : Bool),
        compressorComponentOf { s with converged := b } = compressorComponentOf s) ∧
    (∀ machCalc : ℚ,
        (combustorGasUpdateOutcome machCalc false).completed = true ∧
        (combustorGasUpdateOutcome machCalc false).machCombOut = none) :=
  ⟨fun _ _ => rfl, fun _ => ⟨rfl, rfl⟩⟩

/-- **C6.** In `turbine_solver` the required total specific work extracted is
the same for every stage: the stage walk equals the generic per-stage-work
walk at the constant assignment `(compressor_work / loss_factor) /
stage_count`, the `work_per_stage` of line 495 equals that formula, and at
`compressor_work = 297`, `loss_factor = 0.99`, `stage_count = 3` it
evaluates to 100. -/
theorem turbine_work_per_stage_uniform (ops : NumOps) (gm : GasModel)
    (compressorWork : ℚ) (turbineNStages : ℕ)
    (turbineEta turbineLoss machIn machOut : ℚ) (gasIn : GasState) :
    turbineSolver ops gm compressorWork turbineNStages turbineEta turbineLoss
        machIn machOut gasIn =
      turbineStagesWith ops gm turbineEta machOut
        (fun _ => (compressorWork / turbineLoss) / (turbineNStages : ℚ))
        turbineNStages (turbineInit ops gm machIn machOut gasIn) ∧
    turbineWorkPerStage compressorWork turbineLoss turbineNStages =
      (compressorWork / turbineLoss) / (turbineNStages : ℚ) ∧
    turbineWorkPerStage 297 (99/100) 3 = 100 := by
  refine ⟨rfl, rfl, ?_⟩
  norm_num [turbineWorkPerStage]

/-- **C10.** For `mach_in = 0` the inlet velocity is `0 * get_a(gas_in)` and
the outlet total pressure computed in every iteration of `mach_solver`
collapses to `gas_in.P`, independently of the efficiency `eta`, because the
efficiency term multiplies the (zero) inlet kinetic energy; the only fact
needed about the power operation is that it sends base 1 to 1. -/
theorem mach_p_total_out_zero_mach_in (ops : NumOps) (gm : GasModel)
    (g : GasState) (eta gammaIn : ℚ)
    (h : ops.pow 1 (gammaIn / (gammaIn - 1)) = 1) :
    machPTotalOut ops gm g eta (0 * get_a ops gm g) gammaIn = g.P := by
  simp [machPTotalOut, h]

/-- Witness for **C10**: concrete instance with `gamma = 2` and `eta = 7`. -/
theorem mach_p_total_out_zero_mach_in_witness :
    machPTotalOut qOps gmTwo c1GasIn 7 (0 * get_a qOps gmTwo c1GasIn)
      (get_gamma gmTwo c1GasIn) = 64 := by
  have h := mach_p_total_out_zero_mach_in qOps gmTwo c1GasIn 7
    (get_gamma gmTwo c1GasIn)
    (by norm_num [qOps, qpow, get_gamma, gmTwo])
  simpa [c1GasIn] using h

/-- The combustor loop body carries the outlet total pressure through
unchanged: no branch assigns to it. -/
theorem combustorStep_pTotalOut (ops : NumOps) (gm : GasModel)
    (velocityNominal : ℚ) (s : CombState) :
    (combustorStep ops gm velocityNominal s).pTotalOut = s.pTotalOut := by
  simp only [combustorStep]
  split_ifs <;> rfl

/-- The combustor loop body carries the outlet total temperature through
unchanged. -/
theorem combustorStep_tTotalOut (ops : NumOps) (gm : GasModel)
    (velocityNominal : ℚ) (s : CombState) :
    (combustorStep ops gm velocityNominal s).tTotalOut = s.tTotalOut := by
  simp only [combustorStep]
  split_ifs <;> rfl

theorem combLoop_pTotalOut (ops : NumOps) (gm : GasModel)
    (velocityNominal : ℚ) :
    ∀ (fuel : ℕ) (s : CombState),
      (combLoop ops gm velocityNominal fuel s).pTotalOut = s.pTotalOut := by
  intro fuel
  induction fuel with
  | zero => intro s; rfl
  | succ f ih =>
    intro s
    rw [combLoop]
    split_ifs
    · rw [ih, combustorStep_pTotalOut]
    · rfl

/-- **C7.** The outlet total pressure of `combustor_solver` is fixed before
the loop to `p_total_in * (1 - pressure_lost)` (line 434) and no iteration
modifies it: after any number of iterations it still equals that value, and
for `pressure_lost = 0` it equals the inlet total pressure. -/
theorem combustor_p_total_out_invariant (ops : NumOps) (gm : GasModel)
    (velocityNominal machIn pressureLost : ℚ) (fuel : ℕ)
    (gasIn gasOut : GasState) :
    (combustorSolver ops gm velocityNominal machIn pressureLost fuel gasIn
        gasOut).pTotalOut =
      get_p_total ops gasIn.P (get_gamma gm gasIn) machIn * (1 - pressureLost) ∧
    (pressureLost = 0 →
      (combustorSolver ops gm velocityNominal machIn pressureLost fuel gasIn
          gasOut).pTotalOut =
        get_p_total ops gasIn.P (get_gamma gm gasIn) machIn) := by
  have h : (combustorSolver ops gm velocityNominal machIn pressureLost fuel
      gasIn gasOut).pTotalOut =
      get_p_total ops gasIn.P (get_gamma gm gasIn) machIn * (1 - pressureLost) := by
    unfold combustorSolver
    rw [combLoop_pTotalOut]
    rfl
  exact ⟨h, fun h0 => by rw [h, h0]; ring⟩

/-- Witness for **C7**: a converging concrete combustor run with
`pressure_lost = 0` keeps the inlet total pressure. -/
theorem combustor_p_total_out_invariant_witness :
    (combustorSolver qOps gmTwo 0 0 0 5 ⟨2, 8, 0⟩ ⟨2, 8, 0⟩).pTotalOut =
      get_p_total qOps (GasState.mk 2 8 0).P (get_gamma gmTwo ⟨2, 8, 0⟩) 0 :=
  (combustor_p_total_out_invariant qOps gmTwo 0 0 0 5 ⟨2, 8, 0⟩ ⟨2, 8, 0⟩).2 rfl

/-- **C9.** No solver call mutates its upstream station: for each of the four
solvers, the station pair after the call has the same `gas_in` (temperature,
pressure and composition) as before the call; only `gas_out` (and internal
scratch states) are written. -/
theorem solvers_preserve_gas_in (ops : NumOps) (gm : GasModel)
    (massFlow area eta machIn tol velocityNominal pressureLost : ℚ)
    (nStages turbineNStages maxIterations fuel : ℕ)
    (compress compEta compressorWork turbineEta turbineLoss machOut : ℚ)
    (st : Stations) :
    (machSolverStations ops gm massFlow area eta machIn tol maxIterations fuel
        st).gasIn = st.gasIn ∧
    (compressorSolverStations ops gm nStages compress compEta machIn
        maxIterations fuel st).gasIn = st.gasIn ∧
    (combustorSolverStations ops gm velocityNominal machIn pressureLost fuel
        st).gasIn = st.gasIn ∧
    (turbineSolverStations ops gm compressorWork turbineNStages turbineEta
        turbineLoss machIn machOut st).gasIn = st.gasIn := by
  refine ⟨?_, ?_, ?_, rfl⟩
  · simp only [machSolverStations, machSolver]
    rw [machLoop_gasIn]
    rfl
  · simp only [compressorSolverStations, compressorSolver]
    rw [compLoop_gasIn]
    rfl
  · simp only [combustorSolverStations, combustorSolver]
    rw [combLoop_gasIn]
    rfl

/-- Invariant of the oscillating `mach_solver` run: the upstream station is
fixed, the loop has not converged, the iteration counter is pinned at or
below the bound, and the velocity guess alternates between 1 and 2. -/
def c2Inv (s : MachState) : Prop :=
  s.gasIn = c2GasIn ∧ s.converged = false ∧ s.nIter ≤ 1 ∧
    (s.vGuess = 1 ∨ s.vGuess = 2)

theorem c2Inv_step (s : MachState) (h : c2Inv s) :
    c2Inv (machStep qOps c2Gm 1 1 1 0 2 (1/100) 1 s) := by
  obtain ⟨h1, h2, h3, h4⟩ := h
  rcases h4 with hv | hv <;>
  · simp only [machStep, machPTotalOut, h1, hv, c2Gm, c2GasIn, c2Inv]
    norm_num
    split_ifs with hn <;> simp_all

theorem c2Inv_loop : ∀ (fuel : ℕ) (s : MachState), c2Inv s →
    c2Inv (machLoop qOps c2Gm 1 1 1 0 2 (1/100) 1 fuel s) := by
  intro fuel
  induction fuel with
  | zero => intro s h; exact h
  | succ f ih =>
    intro s h
    rw [machLoop, if_pos ⟨h.2.1, h.2.2.1⟩]
    exact ih _ (c2Inv_step s h)

/-- **C2.** The claim states every `mach_solver` call terminates, either
converging within `max_iterations` or exiting with `(0, false)`. In the code
the non-convergence branch (lines 184-186) neither sets `converged` nor
increments `n_iter` once `n_iter = max_iterations`, so the loop guard stays
true: on a valid input (unit mass flow and area, tolerance 1/100, a provider
whose density alternates the continuity velocity guess between 1 and 2) the
loop is still running — not converged, counter pinned at the bound — after
every number of iterations. The solver never exits, contradicting the
claimed return of Mach 0 with `converged = false`. `combustor_solver`
(lines 453-457) has the same branch structure. -/
theorem mach_solver_failure_never_exits (fuel : ℕ) :
    (machSolver qOps c2Gm 1 1 1 0 (1/100) 1 fuel c2GasIn c2GasIn).converged
        = false ∧
    (machSolver qOps c2Gm 1 1 1 0 (1/100) 1 fuel c2GasIn c2GasIn).nIter ≤ 1 := by
  have hInit : c2Inv (machInit c2Gm 1 1 0 c2GasIn c2GasIn) := by
    refine ⟨rfl, rfl, by norm_num [machInit], Or.inl ?_⟩
    norm_num [machInit, c2Gm, c2GasIn]
  have hv0 : (0 : ℚ) * get_a qOps c2Gm c2GasIn = 0 := zero_mul _
  have hg : get_gamma c2Gm c2GasIn = 2 := by norm_num [get_gamma, c2Gm]
  have h := c2Inv_loop fuel _ hInit
  simp only [machSolver, hv0, hg]
  exact ⟨h.2.1, h.2.2.1⟩

theorem compressorStage_stagesT_length (ops : NumOps) (gm : GasModel)
    (compressStage compEta machIn : ℚ) (acc : StageAcc) (mult : ℚ) :
    (compressorStage ops gm compressStage compEta machIn acc mult).stagesT.length
      = acc.stagesT.length + 1 := by
  simp [compressorStage]

theorem stage_walk_stagesT_length (ops : NumOps) (gm : GasModel)
    (compressStage compEta machIn : ℚ) :
    ∀ (mults : List ℚ) (acc : StageAcc),
      ((mults.foldl (compressorStage ops gm compressStage compEta machIn)
        acc).stagesT).length = acc.stagesT.length + mults.length := by
  intro mults
  induction mults with
  | nil => intro acc; simp
  | cons m ms ih =>
    intro acc
    rw [List.foldl_cons, ih, compressorStage_stagesT_length]
    simp
    omega

theorem processCompressorStages_stagesT_length (ops : NumOps) (gm : GasModel)
    (gasIn : GasState) (compressStage compEta machIn : ℚ)
    (stageMultiplier : List ℚ) (temperatureTotalIn pTotalIn : ℚ) :
    (processCompressorStages ops gm gasIn compressStage compEta machIn
      stageMultiplier temperatureTotalIn pTotalIn).stagesTemperatureOut.length
      = stageMultiplier.length := by
  simp only [processCompressorStages]
  rw [stage_walk_stagesT_length]
  simp

/-- **C8** (amended). In every pass of the compressor stage walk,
`max_delta_T` is: the final static temperature minus the inlet temperature
for one stage; the explicit pairwise maximum of `T[1] - T[0]` and
`T[0] - T_in` for two stages — which agrees with the general
`np.diff().max()` branch exactly when the inlet-to-first-stage difference
does not exceed the first-to-second-stage difference; and the maximum of
consecutive stage differences for three or more stages. (The original
claim's unconditional agreement of the two-stage branch with
`diff().max()` is refuted by
`compressor_two_stage_delta_vs_diff_max_counterexample`.) -/
theorem compressor_max_delta_t_branches (ops : NumOps) (gm : GasModel)
    (gasIn : GasState) (compressStage compEta machIn : ℚ)
    (stageMultiplier : List ℚ) (temperatureTotalIn pTotalIn : ℚ)
    (r : StagesResult)
    (hr : r = processCompressorStages ops gm gasIn compressStage compEta machIn
      stageMultiplier temperatureTotalIn pTotalIn) :
    (stageMultiplier.length = 1 →
      r.maxDeltaT = r.temperatureStatic - gasIn.T) ∧
    (stageMultiplier.length = 2 →
      r.maxDeltaT =
        max (r.stagesTemperatureOut.getD 1 0 - r.stagesTemperatureOut.getD 0 0)
          (r.stagesTemperatureOut.getD 0 0 - gasIn.T) ∧
      (r.stagesTemperatureOut.getD 0 0 - gasIn.T ≤
          r.stagesTemperatureOut.getD 1 0 - r.stagesTemperatureOut.getD 0 0 →
        r.maxDeltaT = maxConsecDiff r.stagesTemperatureOut)) ∧
    (2 < stageMultiplier.length →
      r.maxDeltaT = maxConsecDiff r.stagesTemperatureOut) := by
  have hlen : r.stagesTemperatureOut.length = stageMultiplier.length := by
    rw [hr, processCompressorStages_stagesT_length]
  refine ⟨?_, ?_, ?_⟩
  · intro h1
    rw [hr]
    simp only [processCompressorStages, maxDeltaT, h1]
    norm_num
  · intro h2
    obtain ⟨a, b, hab⟩ := List.length_eq_two.mp (hlen.trans h2)
    have hbranch : r.maxDeltaT =
        max (r.stagesTemperatureOut.getD 1 0 - r.stagesTemperatureOut.getD 0 0)
          (r.stagesTemperatureOut.getD 0 0 - gasIn.T) := by
      rw [hr]
      simp only [processCompressorStages, maxDeltaT, h2]
      norm_num
    refine ⟨hbranch, fun hle => ?_⟩
    rw [hab] at hle
    rw [hbranch, hab]
    simp only [List.getD_cons_zero, List.getD_cons_succ] at hle ⊢
    rw [max_eq_left hle]
    simp [maxConsecDiff]
  · intro h3
    rw [hr]
    simp only [processCompressorStages, maxDeltaT]
    rw [if_pos h3]

/-- **C8** (counterexample to the original claim). A two-stage pass
(`gamma = 1/2`, inlet T = 10, per-stage ratio 1/2, multipliers `[1, 20/11]`,
unit efficiency, zero Mach) produces stage temperatures `[20, 22]`: the
explicit two-stage branch gives `max(22 - 20, 20 - 10) = 10`, while the
general `diff().max()` branch gives `2` — they do not agree. -/
theorem compressor_two_stage_delta_vs_diff_max_counterexample :
    (processCompressorStages qOps gmHalf ⟨10, 100, 0⟩ (1/2) 1 0 [1, 20/11] 10
        100).stagesTemperatureOut = [20, 22] ∧
    (processCompressorStages qOps gmHalf ⟨10, 100, 0⟩ (1/2) 1 0 [1, 20/11] 10
        100).maxDeltaT = 10 ∧
    maxConsecDiff [20, 22] = 2 ∧
    (processCompressorStages qOps gmHalf ⟨10, 100, 0⟩ (1/2) 1 0 [1, 20/11] 10
          100).maxDeltaT ≠
      maxConsecDiff (processCompressorStages qOps gmHalf ⟨10, 100, 0⟩ (1/2) 1 0
          [1, 20/11] 10 100).stagesTemperatureOut := by
  refine ⟨?_, ?_, ?_, ?_⟩ <;>
    norm_num [processCompressorStages, compressorStage, maxDeltaT, maxConsecDiff,
      get_p_total, get_p_static, get_temperature_static, get_gamma, gmHalf,
      qOps, qpow, compAirX, List.foldl]

/-- Witness for **C8** (amended): a two-stage pass where the first-stage rise
(1) does not exceed the stage-1-to-2 rise (2), so the explicit branch agrees
with `diff().max()`. -/
theorem compressor_max_delta_t_branches_witness :
    (processCompressorStages qOps gmHalf ⟨1, 16, 0⟩ (1/2) 1 0 [1, 1] 1
        16).maxDeltaT =
      maxConsecDiff (processCompressorStages qOps gmHalf ⟨1, 16, 0⟩ (1/2) 1 0
          [1, 1] 1 16).stagesTemperatureOut := by
  have h := compressor_max_delta_t_branches qOps gmHalf ⟨1, 16, 0⟩ (1/2) 1 0
    [1, 1] 1 16 _ rfl
  refine (h.2.1 (by norm_num)).2 ?_
  norm_num [processCompressorStages, compressorStage, get_p_total, get_p_static,
    get_temperature_static, get_gamma, gmHalf, qOps, qpow, compAirX, List.foldl]

/-- The committed outlet values of a compressor loop state are those of the
last recorded pass (vacuous before any pass has run). -/
def committedIsLastPass (s : CompState) : Prop :=
  ∀ p ∈ s.trace.getLast?,
    s.temperatureStatic = p.temperatureStatic ∧ s.pStatic = p.pStatic ∧
      s.compressorWork = p.work

theorem compressorPass_committedIsLastPass (ops : NumOps) (gm : GasModel)
    (compressStage compEta machIn temperatureTotalIn pTotalIn : ℚ)
    (shifter : List ℚ) (maxIterations : ℕ) (s : CompState) :
    committedIsLastPass (compressorPass ops gm compressStage compEta machIn
      temperatureTotalIn pTotalIn shifter maxIterations s) := by
  intro p hp
  simp only [compressorPass] at hp ⊢
  split_ifs at hp ⊢ <;>
    simp only [List.getLast?_concat, Option.mem_def, Option.some.injEq] at hp <;>
    simp [← hp]

theorem compLoop_committedIsLastPass (ops : NumOps) (gm : GasModel)
    (compressStage compEta machIn temperatureTotalIn pTotalIn : ℚ)
    (shifter : List ℚ) (maxIterations : ℕ) :
    ∀ (fuel : ℕ) (s : CompState), committedIsLastPass s →
      committedIsLastPass (compLoop ops gm compressStage compEta machIn
        temperatureTotalIn pTotalIn shifter maxIterations fuel s) := by
  intro fuel
  induction fuel with
  | zero => intro s h; exact h
  | succ f ih =>
    intro s h
    rw [compLoop]
    split_ifs
    · exact ih _ (compressorPass_committedIsLastPass ops gm compressStage
        compEta machIn temperatureTotalIn pTotalIn shifter maxIterations s)
    · exact h

/-- **C5** (amended). Whatever way `compressor_solver` exits (in particular
when it exhausts `max_iterations` and returns `converged = false`), the
committed outlet static temperature and pressure and the returned specific
work are those of the **final** pass — the pass computed with the
most-shifted multipliers — not necessarily those of the pass with minimal
`max_delta_T`. (The original "best result found" claim is refuted by
`compressor_commits_last_not_best_counterexample`.) -/
theorem compressor_commits_final_pass (ops : NumOps) (gm : GasModel)
    (nStages : ℕ) (compress compEta machIn : ℚ) (maxIterations fuel : ℕ)
    (gasIn : GasState) (p : PassRecord)
    (hp : p ∈ (compressorSolver ops gm nStages compress compEta machIn
      maxIterations fuel gasIn).trace.getLast?) :
    (compressorSolver ops gm nStages compress compEta machIn maxIterations fuel
        gasIn).temperatureStatic = p.temperatureStatic ∧
    (compressorSolver ops gm nStages compress compEta machIn maxIterations fuel
        gasIn).pStatic = p.pStatic ∧
    (compressorSolver ops gm nStages compress compEta machIn maxIterations fuel
        gasIn).compressorWork = p.work := by
  refine compLoop_committedIsLastPass _ _ _ _ _ _ _ _ _ fuel _ ?_ p hp
  intro q hq
  simp [compInit] at hq

/-- Pass 0 of the concrete two-stage run: multipliers `[1, 1]`. -/
theorem c5_pass0_eval :
    processCompressorStages qOps gmHalf ⟨1, 16, 0⟩ (1/2) 1 0 [1, 1] 1 16 =
      ⟨4, 4, 3, [2, 4], [8, 4], 2⟩ := by
  norm_num [processCompressorStages, compressorStage, maxDeltaT, maxConsecDiff,
    get_p_total, get_p_static, get_temperature_static, get_gamma, gmHalf, qOps,
    qpow, compAirX, List.foldl, StagesResult.mk.injEq]

set_option maxRecDepth 4000 in
/-- Pass 1 of the concrete two-stage run: shifted multipliers. -/
theorem c5_pass1_eval :
    processCompressorStages qOps gmHalf ⟨1, 16, 0⟩ (1/2) 1 0
        [2001/2000, 1999/2000] 1 16 =
      ⟨16000000/3999999, 3999999/1000000, 12000001/3999999,
        [4000/2001, 16000000/3999999], [2001/250, 3999999/1000000],
        4000/1999⟩ := by
  norm_num [processCompressorStages, compressorStage, maxDeltaT, maxConsecDiff,
    get_p_total, get_p_static, get_temperature_static, get_gamma, gmHalf, qOps,
    qpow, compAirX, List.foldl, StagesResult.mk.injEq]

set_option maxRecDepth 4000 in
/-- Full evaluation of the concrete two-stage `compressor_solver` run with
`max_iterations = 1`: pass 0 improves (2 < 1000) and shifts the multipliers,
pass 1 exhausts the budget, the loop exits unconverged with the final pass
committed. -/
theorem c5_run_eval :
    compressorSolver qOps gmHalf 2 (1/4) 1 0 1 3 ⟨1, 16, 0⟩ =
      { gasIn := ⟨1, 16, 0⟩
        nIter := 2
        converged := false
        prevDeltaT := 2
        stageMultiplier := [2001/2000, 1999/2000]
        temperatureStatic := 16000000/3999999
        pStatic := 3999999/1000000
        compressorWork := 12000001/3999999
        stagesTemperatureOut := [4000/2001, 16000000/3999999]
        stagesPOut := [2001/250, 3999999/1000000]
        trace := [⟨2, 4, 4, 3⟩,
          ⟨4000/1999, 16000000/3999999, 3999999/1000000, 12000001/3999999⟩] } := by
  have h1 : get_gamma gmHalf ⟨1, 16, 0⟩ = 1/2 := by
    norm_num [get_gamma, gmHalf]
  have h2 : qOps.pow (1/4) (1 / ((2 : ℕ) : ℚ)) = 1/2 := by
    norm_num [qOps, qpow, qsqrt, natSqrt, natSqrtFrom]
  have h3 : get_temperature_total 1 (1/2) 0 = 1 := by
    norm_num [get_temperature_total]
  have h4 : get_p_total qOps 16 (1/2) 0 = 16 := by
    norm_num [get_p_total, qOps, qpow]
  have h5 : shifterList 2 ((1 / 1000) / ((2 : ℕ) : ℚ)) =
      [2001/2000, 1999/2000] := by
    norm_num [shifterList, List.range_succ]
  simp only [compressorSolver, h1, h2, h3, h4, h5]
  norm_num [compLoop, compGuard, compressorPass, compInit, List.replicate,
    c5_pass0_eval, c5_pass1_eval, CompState.mk.injEq, PassRecord.mk.injEq]

/-- **C5** (counterexample to the original claim). Two-stage compressor,
`gamma = 1/2`, overall ratio 1/4, unit efficiency, zero inlet Mach,
`max_iterations = 1`: pass 0 (multipliers `[1, 1]`) has `max_delta_T = 2`
and final stage temperature 4; pass 1 (shifted multipliers) has
`max_delta_T = 4000/1999 > 2`. The run exits unconverged, yet commits the
final pass's temperature `16000000/3999999`, not the temperature 4 of the
minimal-`max_delta_T` pass. -/
theorem compressor_commits_last_not_best_counterexample :
    (compressorSolver qOps gmHalf 2 (1/4) 1 0 1 3 ⟨1, 16, 0⟩).converged
        = false ∧
    (compressorSolver qOps gmHalf 2 (1/4) 1 0 1 3 ⟨1, 16, 0⟩).trace.map
        PassRecord.delta = [2, 4000/1999] ∧
    (2 : ℚ) < 4000/1999 ∧
    (compressorSolver qOps gmHalf 2 (1/4) 1 0 1 3 ⟨1, 16, 0⟩).trace.map
        PassRecord.temperatureStatic = [4, 16000000/3999999] ∧
    (compressorSolver qOps gmHalf 2 (1/4) 1 0 1 3
        ⟨1, 16, 0⟩).temperatureStatic = 16000000/3999999 ∧
    (compressorSolver qOps gmHalf 2 (1/4) 1 0 1 3
        ⟨1, 16, 0⟩).temperatureStatic ≠ 4 := by
  rw [c5_run_eval]
  norm_num

/-- Witness for **C5** (amended): in the same concrete run the committed
values equal those of the final recorded pass. -/
theorem compressor_commits_final_pass_witness :
    (compressorSolver qOps gmHalf 2 (1/4) 1 0 1 3 ⟨1, 16, 0⟩).temperatureStatic
        = 16000000/3999999 ∧
    (compressorSolver qOps gmHalf 2 (1/4) 1 0 1 3 ⟨1, 16, 0⟩).pStatic
        = 3999999/1000000 ∧
    (compressorSolver qOps gmHalf 2 (1/4) 1 0 1 3 ⟨1, 16, 0⟩).compressorWork
        = 12000001/3999999 :=
  compressor_commits_final_pass qOps gmHalf 2 (1/4) 1 0 1 3 ⟨1, 16, 0⟩
    ⟨4000/1999, 16000000/3999999, 3999999/1000000, 12000001/3999999⟩
    (by rw [c5_run_eval]; rfl)

/-- The per-pass `max_delta_t` values recorded so far, in execution order. -/
def deltaTrace (s : CompState) : List ℚ :=
  s.trace.map PassRecord.delta

/-- Invariant of a compressor outer-loop state that is still running: the
iteration counter counts executed passes, the recorded `max_delta_t` values
are strictly decreasing (every executed pass took the improvement branch),
and `prev_delta_t` holds the last recorded value. -/
def CompRunning (s : CompState) : Prop :=
  s.nIter = s.trace.length ∧
  List.Chain' (fun a b => b < a) (deltaTrace s) ∧
  ∀ d ∈ (deltaTrace s).getLast?, s.prevDeltaT = d

/-- Postcondition of a finished compressor outer loop: at most
`max_iterations + 1` passes ran, and the recorded `max_delta_t` values are
strictly decreasing except possibly at the final pass. -/
def CompFinished (maxIterations : ℕ) (s : CompState) : Prop :=
  s.trace.length ≤ maxIterations + 1 ∧
  List.Chain' (fun a b => b < a) (deltaTrace s).dropLast

/-- Combined loop invariant, guarded by whether the loop is still running. -/
def CompOk (maxIterations : ℕ) (s : CompState) : Prop :=
  (compGuard maxIterations s → CompRunning s) ∧
  (¬compGuard maxIterations s → CompFinished maxIterations s)

theorem compressorPass_ok (ops : NumOps) (gm : GasModel)
    (compressStage compEta machIn temperatureTotalIn pTotalIn : ℚ)
    (shifter : List ℚ) (maxIterations : ℕ) (s : CompState)
    (hg : compGuard maxIterations s) (hinv : CompRunning s) :
    CompOk maxIterations (compressorPass ops gm compressStage compEta machIn
      temperatureTotalIn pTotalIn shifter maxIterations s) ∧
    ((compressorPass ops gm compressStage compEta machIn temperatureTotalIn
        pTotalIn shifter maxIterations s).nIter = s.nIter + 1 ∨
      ¬compGuard maxIterations (compressorPass ops gm compressStage compEta
        machIn temperatureTotalIn pTotalIn shifter maxIterations s)) := by
  obtain ⟨hgc, hgn⟩ := hg
  obtain ⟨hlen, hchain, hprev⟩ := hinv
  simp only [compressorPass]
  split_ifs with h1 h2
  · -- improvement branch: shift multipliers and continue
    refine ⟨⟨fun _ => ?_, fun hng => absurd ?_ hng⟩, Or.inl rfl⟩
    · refine ⟨by simp [hlen], ?_, ?_⟩
      · simp only [deltaTrace, List.map_append, List.map_cons, List.map_nil]
        rw [List.chain'_append]
        refine ⟨hchain, List.chain'_singleton _, ?_⟩
        intro x hx y hy
        simp only [List.head?_cons, Option.mem_def, Option.some.injEq] at hy
        rw [← hy, ← hprev x hx]
        exact h1.1
      · intro d hd
        simp only [deltaTrace, List.map_append, List.map_cons, List.map_nil,
          List.getLast?_concat, Option.mem_def, Option.some.injEq] at hd
        simp [← hd]
    · exact ⟨hgc, by simpa using h1.2⟩
  · -- budget-exhaustion branch: count past the bound and exit
    have hne : s.nIter = maxIterations := le_antisymm hgn h2
    refine ⟨⟨fun hgg => absurd hgg.2 (by simp; omega), fun _ => ?_⟩, Or.inl rfl⟩
    refine ⟨by simp [← hlen, hne], ?_⟩
    simp only [deltaTrace, List.map_append, List.map_cons, List.map_nil,
      List.dropLast_concat]
    exact hchain
  · -- convergence branch: stop improving and exit
    refine ⟨⟨fun hgg => absurd hgg.1 (by simp), fun _ => ?_⟩, Or.inr ?_⟩
    · refine ⟨by simp [← hlen]; omega, ?_⟩
      simp only [deltaTrace, List.map_append, List.map_cons, List.map_nil,
        List.dropLast_concat]
      exact hchain
    · intro hgg
      exact absurd hgg.1 (by simp)

theorem compLoop_of_not_guard (ops : NumOps) (gm : GasModel)
    (compressStage compEta machIn temperatureTotalIn pTotalIn : ℚ)
    (shifter : List ℚ) (maxIterations : ℕ) (fuel : ℕ) (s : CompState)
    (h : ¬compGuard maxIterations s) :
    compLoop ops gm compressStage compEta machIn temperatureTotalIn pTotalIn
      shifter maxIterations fuel s = s := by
  cases fuel with
  | zero => rfl
  | succ f => rw [compLoop, if_neg h]

theorem compLoop_finished (ops : NumOps) (gm : GasModel)
    (compressStage compEta machIn temperatureTotalIn pTotalIn : ℚ)
    (shifter : List ℚ) (maxIterations : ℕ) :
    ∀ (fuel : ℕ) (s : CompState), CompOk maxIterations s →
      maxIterations + 2 - s.nIter ≤ fuel →
      ¬compGuard maxIterations (compLoop ops gm compressStage compEta machIn
          temperatureTotalIn pTotalIn shifter maxIterations fuel s) ∧
        CompFinished maxIterations (compLoop ops gm compressStage compEta machIn
          temperatureTotalIn pTotalIn shifter maxIterations fuel s) := by
  intro fuel
  induction fuel with
  | zero =>
    intro s hok hf
    have hng : ¬compGuard maxIterations s := fun hgg => by
      have := hgg.2
      omega
    exact ⟨hng, hok.2 hng⟩
  | succ f ih =>
    intro s hok hf
    by_cases hg : compGuard maxIterations s
    · rw [compLoop, if_pos hg]
      obtain ⟨hok', hstep⟩ := compressorPass_ok ops gm compressStage compEta
        machIn temperatureTotalIn pTotalIn shifter maxIterations s hg
        (hok.1 hg)
      rcases hstep with hn | hng'
      · refine ih _ hok' ?_
        rw [hn]
        have := hg.2
        omega
      · rw [compLoop_of_not_guard _ _ _ _ _ _ _ _ _ _ _ hng']
        exact ⟨hng', hok'.2 hng'⟩
    · rw [compLoop, if_neg hg]
      exact ⟨hg, hok.2 hg⟩

theorem compInit_ok (maxIterations nStages : ℕ) (gasIn : GasState) :
    CompOk maxIterations (compInit nStages gasIn) := by
  constructor
  · intro _
    refine ⟨by simp [compInit], by simp [deltaTrace, compInit], ?_⟩
    intro d hd
    simp [deltaTrace, compInit] at hd
  · intro h
    exact absurd ⟨rfl, Nat.zero_le _⟩ h

/-- **C3.** With fuel `max_iterations + 2` the outer loop of
`compressor_solver` has finished: its guard is false (the function returns,
converged or not), it executed at most `max_iterations + 1` passes, and
whenever the loop continued past iteration `k+1` (a pass `k+2` exists), the
`max_delta_t` of iteration `k+1` is at most that of iteration `k` — the
loop only keeps iterating while `max_delta_t` strictly improves. -/
theorem compressor_loop_monotone_and_bounded (ops : NumOps) (gm : GasModel)
    (nStages : ℕ) (compress compEta machIn : ℚ) (maxIterations : ℕ)
    (gasIn : GasState) :
    ¬compGuard maxIterations (compressorSolver ops gm nStages compress compEta
        machIn maxIterations (maxIterations + 2) gasIn) ∧
    (compressorSolver ops gm nStages compress compEta machIn maxIterations
        (maxIterations + 2) gasIn).trace.length ≤ maxIterations + 1 ∧
    ∀ k : ℕ,
      k + 3 ≤ (compressorSolver ops gm nStages compress compEta machIn
        maxIterations (maxIterations + 2) gasIn).trace.length →
      (deltaTrace (compressorSolver ops gm nStages compress compEta machIn
          maxIterations (maxIterations + 2) gasIn)).getD (k + 1) 0 ≤
        (deltaTrace (compressorSolver ops gm nStages compress compEta machIn
          maxIterations (maxIterations + 2) gasIn)).getD k 0 := by
  have h := compLoop_finished ops gm
    (ops.pow compress (1 / (nStages : ℚ))) compEta machIn
    (get_temperature_total gasIn.T (get_gamma gm gasIn) machIn)
    (get_p_total ops gasIn.P (get_gamma gm gasIn) machIn)
    (shifterList nStages ((1 / 1000) / (nStages : ℚ))) maxIterations
    (maxIterations + 2) (compInit nStages gasIn)
    (compInit_ok maxIterations nStages gasIn) (by simp [compInit])
  rw [show compLoop ops gm (ops.pow compress (1 / (nStages : ℚ))) compEta machIn
      (get_temperature_total gasIn.T (get_gamma gm gasIn) machIn)
      (get_p_total ops gasIn.P (get_gamma gm gasIn) machIn)
      (shifterList nStages ((1 / 1000) / (nStages : ℚ))) maxIterations
      (maxIterations + 2) (compInit nStages gasIn) =
      compressorSolver ops gm nStages compress compEta machIn maxIterations
        (maxIterations + 2) gasIn from rfl] at h
  refine ⟨h.1, h.2.1, ?_⟩
  intro k hk
  set res := compressorSolver ops gm nStages compress compEta machIn
    maxIterations (maxIterations + 2) gasIn with hres
  have hchain := h.2.2
  have hlen : (deltaTrace res).length = res.trace.length := by
    simp [deltaTrace]
  have hk1 : k + 1 < (deltaTrace res).dropLast.length := by
    rw [List.length_dropLast, hlen]
    omega
  have hstep := List.chain'_iff_get.mp hchain k (by omega)
  rw [List.get_eq_getElem, List.get_eq_getElem, List.getElem_dropLast,
    List.getElem_dropLast] at hstep
  rw [List.getD_eq_getElem (deltaTrace res) 0 (by rw [hlen]; omega),
    List.getD_eq_getElem (deltaTrace res) 0 (by rw [hlen]; omega)]
  exact le_of_lt hstep

/-- Witness for **C3**: the concrete two-pass run of `c5_run_eval` satisfies
all three conclusions (guard false, two passes within the bound `2`, and the
monotonicity condition, vacuous at trace length 2). -/
theorem compressor_loop_monotone_and_bounded_witness :
    ¬compGuard 1 (compressorSolver qOps gmHalf 2 (1/4) 1 0 1 3 ⟨1, 16, 0⟩) ∧
    (compressorSolver qOps gmHalf 2 (1/4) 1 0 1 3 ⟨1, 16, 0⟩).trace.length
        ≤ 2 ∧
    ∀ k : ℕ,
      k + 3 ≤ (compressorSolver qOps gmHalf 2 (1/4) 1 0 1 3
        ⟨1, 16, 0⟩).trace.length →
      (deltaTrace (compressorSolver qOps gmHalf 2 (1/4) 1 0 1 3
          ⟨1, 16, 0⟩)).getD (k + 1) 0 ≤
        (deltaTrace (compressorSolver qOps gmHalf 2 (1/4) 1 0 1 3
          ⟨1, 16, 0⟩)).getD k 0 :=
  compressor_loop_monotone_and_bounded qOps gmHalf 2 (1/4) 1 0 1 ⟨1, 16, 0⟩

end Enginy
